import Mathlib

/-!
# Verification of the Consultant-Tracker backend

Shallow embedding of the parts of the recruiting-pipeline backend
(`backend/app/...`) that the specification's claims are about, together
with theorems settling each claim.

Conventions used throughout:
* Python strings are Lean `String`s; where byte-level behaviour matters
  (passwords) a string is modeled as its UTF-8 byte list (`List Nat`,
  each entry < 256) or as its list of Unicode code points.
* MongoDB collections are Lean lists; `find_one({"_id": oid})` is
  `List.find?` on the stringified id, `find_one({field: v})` likewise.
* `datetime.utcnow()` timestamps are abstract `Nat` clock values passed
  in explicitly.
* External collaborators (bcrypt via passlib, `datetime.fromisoformat`,
  Python `float(...)`) are modeled by their documented interfaces.
-/

namespace ConsultantTracker

/-! ## Password hashing (`app/core/auth.py`, `app/core/config.py`)

`settings.PASSWORD_MAX_BYTES` defaults to 72 (`app/core/config.py` line 31). -/

def PASSWORD_MAX_BYTES : Nat := 72

/-- The loop test in `verify_password` / `get_password_hash`:
`(truncated[-1] & 0x80) and not (truncated[-1] & 0x40)`, i.e. the byte is a
UTF-8 continuation byte. -/
def isContinuationByte (b : Nat) : Bool :=
  b.land 128 != 0 && b.land 64 == 0

/-- The `while truncated and <continuation test>: truncated = truncated[:-1]`
loop: drop trailing continuation bytes. -/
def dropTrailingContinuation (l : List Nat) : List Nat :=
  (l.reverse.dropWhile isContinuationByte).reverse

/-- A UTF-8 lead byte of a multi-byte sequence (`0b11xxxxxx`). -/
def isLeadByte (b : Nat) : Bool :=
  b.land 192 == 192

/-- `truncated.decode('utf-8', errors='ignore')` (then re-encoding), restricted
to the inputs the source feeds it: a take-prefix of valid UTF-8 from which
trailing continuation bytes were just removed.  The only possible defect left
in such a byte list is a single dangling lead byte at the end, which
`errors='ignore'` discards. -/
def dropDanglingLead (l : List Nat) : List Nat :=
  match l.reverse with
  | [] => []
  | b :: rest => if isLeadByte b then rest.reverse else l

/-- The 72-byte UTF-8-safe truncation applied identically by
`get_password_hash` (lines 62-70) and `verify_password` (lines 36-44) of
`app/core/auth.py`. -/
def truncatePassword (p : List Nat) : List Nat :=
  if p.length > PASSWORD_MAX_BYTES then
    dropDanglingLead (dropTrailingContinuation (p.take PASSWORD_MAX_BYTES))
  else p

/-- Ideal model of the external passlib/bcrypt context (an out-of-scope
collaborator, specified by interface): hashing is deterministic and
collision-free, and `pwd_context.verify(q, pwd_context.hash(p))` holds exactly
when `q = p`. -/
structure BcryptHash where
  plain : List Nat
deriving DecidableEq, Repr

/-- `pwd_context.hash` (interface model). -/
def pwdContextHash (p : List Nat) : BcryptHash := ⟨p⟩

/-- `pwd_context.verify` (interface model). -/
def pwdContextVerify (q : List Nat) (h : BcryptHash) : Bool := q == h.plain

/-- `get_password_hash` (`app/core/auth.py` lines 57-78), on the UTF-8 byte
encoding of the password. -/
def get_password_hash (password : List Nat) : BcryptHash :=
  pwdContextHash (truncatePassword password)

/-- `verify_password` (`app/core/auth.py` lines 31-55), on the UTF-8 byte
encoding of the candidate password. -/
def verify_password (plain_password : List Nat) (hashed : BcryptHash) : Bool :=
  pwdContextVerify (truncatePassword plain_password) hashed

/-! ## Data model (`app/core/models.py` and module models) -/

/-- `UserRole` (`app/core/models.py` lines 20-31). -/
inductive UserRole where
  | ADMIN
  | RECRUITER
  | CONSULTANT
deriving DecidableEq, Repr

/-- A stored account document in one of the three role collections
(`admins`, `recruiters`, `consultants`); matches the `User` model of
`app/core/models.py`.  The optional `phone` field is written into consultant
account documents by `ConsultantRepository.create_or_update`. -/
structure Account where
  id : String
  email : String
  name : String
  role : UserRole
  is_active : Bool := true
  hashed_password : BcryptHash := ⟨[]⟩
  phone : Option String := none
  created_at : Nat := 0
  updated_at : Nat := 0
deriving DecidableEq, Repr

/-- A hexadecimal character, as accepted by `bson.ObjectId`. -/
def isHexChar (c : Char) : Bool :=
  c.isDigit || (97 ≤ c.toNat && c.toNat ≤ 102) || (65 ≤ c.toNat && c.toNat ≤ 70)

/-- `bson.ObjectId(s)` succeeds exactly on 24-character hexadecimal strings
and raises `InvalidId` (a `ValueError` subclass) otherwise. -/
def isValidObjectId (s : String) : Bool :=
  s.length == 24 && s.toList.all isHexChar

/-- Outcome of an HTTP endpoint: a response body or an error status code
(`HTTPException(status_code=...)`, or an uncaught exception surfaced as 500). -/
inductive HRes (α : Type) where
  | ok (value : α)
  | err (statusCode : Nat)
deriving DecidableEq, Repr

/-- `SubmissionStatus` (`app/modules/submissions/models.py` lines 10-17). -/
inductive SubmissionStatus where
  | SUBMITTED
  | INTERVIEW
  | OFFER
  | JOINED
  | REJECTED
  | ON_HOLD
  | WITHDRAWN
deriving DecidableEq, Repr

/-- A stored job-description document plus the read-time joined fields
(`JobDescription` of `app/modules/jobs/models.py`).  `experience_required`
is a float in the source; integral values suffice for every claim. -/
structure Job where
  id : String
  recruiter_id : String
  title : String
  description : String
  client_name : Option String := none
  experience_required : Int := 0
  tech_required : List String := []
  location : Option String := none
  status : String := "OPEN"
  created_at : Nat := 0
  updated_at : Nat := 0
  recruiter_name : Option String := none
  recruiter_email : Option String := none
deriving DecidableEq, Repr

/-- `JobDescriptionUpdate` (`app/modules/jobs/models.py` lines 43-57),
restricted to the fields carried by the `Job` model above. -/
structure JobUpdate where
  title : Option String := none
  description : Option String := none
  client_name : Option String := none
  experience_required : Option Int := none
  tech_required : Option (List String) := none
  location : Option String := none
  status : Option String := none
deriving DecidableEq, Repr

/-- A stored submission document plus the read-time joined fields
(`Submission` of `app/modules/submissions/models.py`). -/
structure Submission where
  id : String
  jd_id : String
  comments : Option String := none
  consultant_id : String
  recruiter_id : String
  resume_path : String
  status : SubmissionStatus
  recruiter_read : Bool := false
  created_at : Nat := 0
  updated_at : Nat := 0
  consultant_name : Option String := none
  consultant_email : Option String := none
  jd_title : Option String := none
deriving DecidableEq, Repr

/-- A stored consultant-profile document plus the read-time joined fields
(`ConsultantProfile` of `app/modules/consultants/models.py`, main fields).
`experience_years` is a float in the source; integral values suffice here. -/
structure ConsultantProfile where
  id : String
  consultant_id : String
  experience_years : Int := 0
  tech_stack : List String := []
  available : Bool := true
  location : Option String := none
  visa_status : Option String := none
  resume_path : Option String := none
  phone : Option String := none
  name : Option String := none
  email : Option String := none
  created_at : Nat := 0
  updated_at : Nat := 0
deriving DecidableEq, Repr

/-- The MongoDB database handle: one list per collection used by the claims.
The best-effort `users` mirror collection is irrelevant to every claim and
omitted. -/
structure Db where
  admins : List Account := []
  recruiters : List Account := []
  consultants : List Account := []
  job_descriptions : List Job := []
  submissions : List Submission := []
  consultant_profiles : List ConsultantProfile := []
deriving DecidableEq, Repr

/-! ## Role gates (`app/core/auth.py` lines 277-369) -/

/-- `require_role(required)`: passes when the resolved role is the required
one, or ADMIN. -/
def requireRole (required role : UserRole) : Bool :=
  role == required || role == .ADMIN

/-- `require_recruiter_or_admin`. -/
def requireRecruiterOrAdmin (role : UserRole) : Bool :=
  role == .RECRUITER || role == .ADMIN

/-! ## Account lookup by email (`app/core/auth.py` lines 147-206, claim C8) -/

/-- Python `str.strip()` with no argument: remove leading and trailing
whitespace characters. -/
def pyStrip (s : String) : String :=
  ⟨((s.toList.dropWhile Char.isWhitespace).reverse.dropWhile
      Char.isWhitespace).reverse⟩

/-- `get_user_by_email`: a blank or whitespace-only email returns `None`
without querying; otherwise the recruiters, consultants and admins
collections are probed in that order and the first match is returned. -/
def get_user_by_email (db : Db) (email : String) : Option Account :=
  if email == "" || pyStrip email == "" then none
  else
    match db.recruiters.find? (fun a => a.email == email) with
    | some u => some u
    | none =>
      match db.consultants.find? (fun a => a.email == email) with
      | some u => some u
      | none => db.admins.find? (fun a => a.email == email)

/-- A database whose recruiters collection holds an account with an empty
email string (such a document is representable in the store even though the
API's own `EmailStr` validation would not create one). -/
def blankEmailDb : Db :=
  { recruiters := [{ id := "64a000000000000000000001", email := "",
                     name := "R", role := .RECRUITER }] }

/-! ## Read-side joins (claim C6)

`JobRepository._merge_recruiter_data` (`app/modules/jobs/repository.py`
lines 20-47) and `ConsultantRepository._merge_user_data`
(`app/modules/consultants/repository.py` lines 24-62). -/

/-- `_merge_recruiter_data`: `if not recruiter_id` is Python falsiness, i.e.
the empty string for a string-valued id.  On an id that `ObjectId` rejects the
placeholders are `"Invalid ID"` / `"N/A"`; on a missing recruiter document
they are `"Unknown Recruiter"` / `"N/A"`; on a hit the recruiter's name and
email are copied (`user_data.get("name", "Unknown")` — the model's account
documents always carry `name` and `email`). -/
def mergeRecruiterData (jd : Job) (db : Db) : Job :=
  if jd.recruiter_id == "" then
    { jd with recruiter_name := some "Unknown Recruiter",
              recruiter_email := some "N/A" }
  else if !isValidObjectId jd.recruiter_id then
    { jd with recruiter_name := some "Invalid ID", recruiter_email := some "N/A" }
  else
    match db.recruiters.find? (fun a => a.id == jd.recruiter_id) with
    | some u => { jd with recruiter_name := some u.name,
                          recruiter_email := some u.email }
    | none => { jd with recruiter_name := some "Unknown Recruiter",
                        recruiter_email := some "N/A" }

/-- `_merge_user_data` for consultant profiles.  The source's re-defaulting of
`tech_stack` / `experience_years` guards legacy documents lacking those keys;
the model's documents always carry them.  Note the asymmetry taken verbatim
from the source: on an invalid id only `name` is overwritten — the `email`
field is left as it was. -/
def mergeUserData (p : ConsultantProfile) (db : Db) : ConsultantProfile :=
  if p.consultant_id == "" then
    { p with name := some "Unknown User", email := some "N/A" }
  else if !isValidObjectId p.consultant_id then
    { p with name := some "Invalid ID" }
  else
    match db.consultants.find? (fun a => a.id == p.consultant_id) with
    | some u => { p with email := some u.email, name := some u.name,
                         phone := some (u.phone.getD "") }
    | none => { p with name := some "Unknown User", email := some "N/A" }

/-- A stored consultant profile whose `consultant_id` is not a valid
`ObjectId` string. -/
def invalidIdProfile : ConsultantProfile :=
  { id := "64c000000000000000000001", consultant_id := "not-an-objectid" }

/-! ## Job listing (claim C7)

`JobRepository.get_all` (`app/modules/jobs/repository.py` lines 70-93) and
the router `get_jobs` (`app/modules/jobs/router.py` lines 52-60). -/

/-- The `query = {}; if status: query["status"] = status` step: `None` and the
empty string are falsy and mean "no filter". -/
def applyStatusFilter (jobs : List Job) (status : Option String) : List Job :=
  match status with
  | some s => if s == "" then jobs else jobs.filter (fun j => j.status == s)
  | none => jobs

/-- `JobRepository.get_all`: filter by status, apply `skip`/`limit`, and merge
recruiter data into every returned document. -/
def jobsGetAll (db : Db) (skip limit : Nat) (status : Option String) : List Job :=
  (((applyStatusFilter db.job_descriptions status).drop skip).take limit).map
    (fun j => mergeRecruiterData j db)

/-- `get_jobs`: consultants are forced onto the `status="OPEN"` filter
regardless of their query parameter; other roles get the filter they asked
for.  `skip`/`limit` keep their defaults 0/100. -/
def get_jobs (role : UserRole) (statusParam : Option String) (db : Db) :
    List Job :=
  if role == .CONSULTANT then jobsGetAll db 0 100 (some "OPEN")
  else jobsGetAll db 0 100 statusParam

/-! ## Job update (claim C1)

`JobRepository.update` (`app/modules/jobs/repository.py` lines 112-137) and
the router `update_job` (`app/modules/jobs/router.py` lines 155-168). -/

/-- The two exceptions `JobRepository.update` can raise on its own:
`bson.errors.InvalidId` from `ObjectId(jd_id)` — a `BSONError`, not a
`ValueError` — and the ownership-rejection `ValueError`.  The router handles
only the latter. -/
inductive JobUpdateError where
  | invalidJobId
  | unauthorized
deriving DecidableEq, Repr

/-- Overwrite an optional stored field only when the update supplies a value
(`{k: v for k, v in jd_data.dict().items() if v is not None}`). -/
def updOptField (new cur : Option String) : Option String :=
  match new with
  | some v => some v
  | none => cur

/-- The `$set` document of `JobRepository.update`: every non-`None` update
field overwrites, and `updated_at` is stamped. -/
def applyJobUpdate (j : Job) (u : JobUpdate) (now : Nat) : Job :=
  { j with
    title := u.title.getD j.title,
    description := u.description.getD j.description,
    client_name := updOptField u.client_name j.client_name,
    experience_required := u.experience_required.getD j.experience_required,
    tech_required := u.tech_required.getD j.tech_required,
    location := updOptField u.location j.location,
    status := u.status.getD j.status,
    updated_at := now }

/-- `JobRepository.update`: convert the id (raising on a malformed one),
fetch the job, reject with `ValueError` when the stored `recruiter_id`
differs from the caller's id (string comparison), otherwise `$set` the update
and re-fetch through `get_by_id` (which merges recruiter data).  Document ids
are unique, so updating every matching list entry models
`update_one`. -/
def jobRepoUpdate (db : Db) (jd_id : String) (jd_data : JobUpdate)
    (recruiter_id : String) (now : Nat) :
    Except JobUpdateError (Option Job × Db) :=
  if isValidObjectId jd_id then
    match db.job_descriptions.find? (fun x => x.id == jd_id) with
    | none => .ok (none, db)
    | some jd =>
      if jd.recruiter_id != recruiter_id then .error .unauthorized
      else
        let updatedJobs := db.job_descriptions.map
          (fun x => if x.id == jd_id then applyJobUpdate x jd_data now else x)
        let db' := { db with job_descriptions := updatedJobs }
        .ok ((db'.job_descriptions.find? (fun x => x.id == jd_id)).map
              (fun x => mergeRecruiterData x db'), db')
  else .error .invalidJobId

/-- `update_job`: gated by `require_recruiter_or_admin`; the ownership
`ValueError` is caught by the router's `except ValueError` and mapped to
HTTP 403, and a missing job to 404, while `bson.errors.InvalidId` from a
malformed id is a `BSONError` that escapes the handler and surfaces as
500. -/
def update_job (role : UserRole) (callerId jd_id : String)
    (jd_data : JobUpdate) (now : Nat) (db : Db) : HRes Job × Db :=
  if requireRecruiterOrAdmin role then
    match jobRepoUpdate db jd_id jd_data callerId now with
    | .error .invalidJobId => (.err 500, db)
    | .error .unauthorized => (.err 403, db)
    | .ok (none, db') => (.err 404, db')
    | .ok (some jb, db') => (.ok jb, db')
  else (.err 403, db)

/-! ## Submission status update (claims C2 and C5)

`SubmissionRepository.update_status` (`app/modules/submissions/repository.py`
lines 143-163) and the router `update_submission_status`
(`app/modules/submissions/router.py` lines 82-96). -/

/-- `SubmissionRepository.update_status`: `$set` the new status and
`updated_at` unconditionally, then re-fetch via `get_by_id`.  The
`recruiter_id` parameter is accepted but never consulted — the source
performs no ownership comparison.  A malformed id raises `bson.InvalidId`.
Document ids are unique, so updating every matching list entry models
`update_one`. -/
def subUpdateStatus (db : Db) (submission_id : String)
    (status : SubmissionStatus) (recruiter_id : String) (now : Nat) :
    Except Unit (Option Submission × Db) :=
  if isValidObjectId submission_id then
    let updatedSubs := db.submissions.map
      (fun s => if s.id == submission_id then
        { s with status := status, updated_at := now } else s)
    let db' := { db with submissions := updatedSubs }
    .ok (db'.submissions.find? (fun s => s.id == submission_id), db')
  else .error ()

/-- The database after `update_status` sets submission `sid` to status `t`
at time `now` (the `$set` write of `SubmissionRepository.update_status`). -/
def setSubmissionStatus (db : Db) (sid : String) (t : SubmissionStatus)
    (now : Nat) : Db :=
  let updated := db.submissions.map
    (fun s => if s.id == sid then { s with status := t, updated_at := now }
      else s)
  { db with submissions := updated }

/-- `update_submission_status`: gated by `require_recruiter_or_admin`; 400
when no status is supplied; 404 when the submission does not exist; then the
unconditional repository update.  Uncaught exceptions (malformed id, a
document vanishing between update and re-fetch) surface as 500.  No
ownership check appears anywhere on this path. -/
def update_submission_status (role : UserRole) (callerId submission_id : String)
    (statusUpdate : Option SubmissionStatus) (now : Nat) (db : Db) :
    HRes Submission × Db :=
  if requireRecruiterOrAdmin role then
    match statusUpdate with
    | none => (.err 400, db)
    | some st =>
      if isValidObjectId submission_id then
        match db.submissions.find? (fun s => s.id == submission_id) with
        | none => (.err 404, db)
        | some _ =>
          match subUpdateStatus db submission_id st callerId now with
          | .error _ => (.err 500, db)
          | .ok (none, db') => (.err 500, db')
          | .ok (some s', db') => (.ok s', db')
      else (.err 500, db)
  else (.err 403, db)

/-- Whether an endpoint outcome is a success response. -/
def isOkRes {α : Type} : HRes α → Bool
  | .ok _ => true
  | .err _ => false

/-- The submission database `nonOwnerDb` holds one submission owned by
recruiter `64b...01`. -/
def nonOwnerDb : Db :=
  { submissions := [{ id := "64f000000000000000000001",
                      jd_id := "64d000000000000000000009",
                      consultant_id := "64c000000000000000000009",
                      recruiter_id := "64b000000000000000000001",
                      resume_path := "uploads/r.pdf",
                      status := .SUBMITTED }] }

/-! ## Submission creation (claim C4)

`create_submission` (`app/modules/submissions/router.py` lines 29-66) and
`SubmissionRepository.create` (`app/modules/submissions/repository.py`
lines 20-43). -/

/-- `JobRepository.get_by_id` (`app/modules/jobs/repository.py` lines
95-110): a malformed id raises `bson.InvalidId` (modeled as `Except.error`);
otherwise the document, if any, merged with recruiter data. -/
def jobGetById (db : Db) (jd_id : String) : Except Unit (Option Job) :=
  if isValidObjectId jd_id then
    .ok ((db.job_descriptions.find? (fun j => j.id == jd_id)).map
      (fun j => mergeRecruiterData j db))
  else .error ()

/-- The lazy consultant-profile step of `create_submission`: when
`get_by_user_id` finds no profile, `create_or_update` upserts one with
`experience_years = 0` and the set-on-insert defaults.  Failures of this step
are swallowed by the router; `newProfileId` models the generated document
id. -/
def ensureConsultantProfile (db : Db) (uid newProfileId : String)
    (now : Nat) : Db :=
  match db.consultant_profiles.find? (fun p => p.consultant_id == uid) with
  | some _ => db
  | none =>
    let inserted : ConsultantProfile :=
      { id := newProfileId, consultant_id := uid, experience_years := 0,
        tech_stack := [], created_at := now, updated_at := now }
    { db with consultant_profiles := db.consultant_profiles ++ [inserted] }

/-- `SubmissionRepository.create`: build the document with status
`SUBMITTED`, `recruiter_read = False`, the stringified recruiter id copied
from the job, the persisted resume path, and fresh timestamps; insert it and
return it.  `newId` models the database-generated id. -/
def subCreate (db : Db) (jd_id : String) (comments : Option String)
    (consultant_id recruiter_id resume_path newId : String) (now : Nat) :
    Submission × Db :=
  let doc : Submission :=
    { id := newId, jd_id := jd_id, comments := comments,
      consultant_id := consultant_id, recruiter_id := recruiter_id,
      resume_path := resume_path, status := .SUBMITTED,
      recruiter_read := false, created_at := now, updated_at := now }
  (doc, { db with submissions := db.submissions ++ [doc] })

/-- `create_submission`: consultant-gated (`require_role(CONSULTANT)`, which
also admits ADMIN); 404 when the job is missing, 400 when it is not OPEN;
otherwise ensure a consultant profile, persist the resume under
`uploads/{uid}_{jd_id}_{rand}{ext}`, and insert exactly one submission.
`rand` models `os.urandom(4).hex()` and `fileExt` the uploaded file's
extension. -/
def create_submission (role : UserRole) (uid jd_id : String)
    (comments : Option String) (fileExt rand newSubId newProfileId : String)
    (now : Nat) (db : Db) : HRes Submission × Db :=
  if requireRole .CONSULTANT role then
    match jobGetById db jd_id with
    | .error _ => (.err 500, db)
    | .ok none => (.err 404, db)
    | .ok (some jd) =>
      if jd.status != "OPEN" then (.err 400, db)
      else
        let db1 := ensureConsultantProfile db uid newProfileId now
        let path := "uploads/" ++ uid ++ "_" ++ jd_id ++ "_" ++ rand ++ fileExt
        let res := subCreate db1 jd_id comments uid jd.recruiter_id path
          newSubId now
        (.ok res.1, res.2)
  else (.err 403, db)

/-! ## AI classification normalization (claim C9)

The validate-and-normalize step of `classify_job_description`
(`app/core/ai_service.py` lines 109-142), applied to the JSON object parsed
from the model response. -/

/-- JSON values as returned by `json.loads`. JSON numbers are modeled with
integral values, which suffice for every claim. -/
inductive JVal where
  | jnull
  | jbool (b : Bool)
  | jnum (n : Int)
  | jstr (s : String)
  | jarr (elems : List JVal)
  | jobj (fields : List (String × JVal))
deriving Repr

/-- `dict.get(k)`: the value of the first matching key, if present (JSON
object keys are unique in practice). -/
def dictGet (fields : List (String × JVal)) (k : String) : Option JVal :=
  (fields.find? (fun kv => kv.1 == k)).map (fun kv => kv.2)

/-- Python truthiness of a decoded JSON value. -/
def jTruthy : JVal → Bool
  | .jnull => false
  | .jbool b => b
  | .jnum n => n != 0
  | .jstr s => s != ""
  | .jarr xs => !xs.isEmpty
  | .jobj fs => !fs.isEmpty

/-- `classified_data.get(k) or None`. -/
def jGetOrNone (fields : List (String × JVal)) (k : String) : Option JVal :=
  match dictGet fields k with
  | some x => if jTruthy x then some x else none
  | none => none

/-- The normalized classification result (the dictionary built at
`ai_service.py` lines 109-121 after normalization). -/
structure ClassifiedJD where
  title : String
  client_name : Option JVal
  experience_required : Int
  tech_required : List JVal
  location : Option JVal
  visa_required : Option JVal
  start_date : Option String
  job_type : Option JVal
  jd_summary : Option JVal
  additional_notes : Option JVal
  description : String
deriving Repr

/-- The validate-and-normalize step of `classify_job_description`.
`pyFloat` models the Python `float(...)` conversion (`none` = the
`TypeError`/`ValueError` it can raise) and `isoParsable` models
`datetime.fromisoformat` succeeding; both are standard-library
collaborators.  A non-string `title` makes `.strip()` raise
`AttributeError`, which the enclosing handler converts to a `ValueError`
(`Except.error`); likewise a `float(...)` failure.  A truthy non-string
`start_date` makes `.replace` raise `AttributeError`, which the local
`except (ValueError, AttributeError)` turns into `None`. -/
def normalizeClassified (pyFloat : JVal → Option Int)
    (isoParsable : String → Bool) (data : List (String × JVal))
    (jd_text : String) : Except String ClassifiedJD :=
  match (dictGet data "title").getD (.jstr "") with
  | .jstr rawTitle =>
    match pyFloat ((dictGet data "experience_required").getD (.jnum 0)) with
    | none => .error "Failed to classify job description"
    | some exp =>
      let title0 := pyStrip rawTitle
      let title := if title0 == "" then "Untitled Position" else title0
      let tech := match (dictGet data "tech_required").getD (.jarr []) with
        | .jarr xs => xs
        | _ => []
      let start_date : Option String :=
        match jGetOrNone data "start_date" with
        | none => none
        | some (.jstr s) =>
          if isoParsable (s.replace "Z" "+00:00") then some s else none
        | some _ => none
      .ok { title := title,
            client_name := jGetOrNone data "client_name",
            experience_required := exp,
            tech_required := tech,
            location := jGetOrNone data "location",
            visa_required := jGetOrNone data "visa_required",
            start_date := start_date,
            job_type := jGetOrNone data "job_type",
            jd_summary := jGetOrNone data "jd_summary",
            additional_notes := jGetOrNone data "additional_notes",
            description := jd_text }
  | _ => .error "Failed to classify job description"

/-! ## Password validation at account creation (claim C10)

`UserCreate.validate_password_length` (`app/core/models.py` lines 52-88) and
the hashing step of the role repositories' `create`
(e.g. `app/modules/auth/user_repositories/recruiters.py` lines 48-74). -/

/-- UTF-8 encoding of one Unicode code point (`str.encode('utf-8')`). -/
def utf8EncodeChar (c : Nat) : List Nat :=
  if c < 128 then [c]
  else if c < 2048 then [192 + c / 64, 128 + c % 64]
  else if c < 65536 then
    [224 + c / 4096, 128 + (c / 64) % 64, 128 + c % 64]
  else
    [240 + c / 262144, 128 + (c / 4096) % 64, 128 + (c / 64) % 64,
     128 + c % 64]

/-- UTF-8 encoding of a Python string, modeled as its code-point list. -/
def utf8Encode (s : List Nat) : List Nat :=
  (s.map utf8EncodeChar).flatten

/-- `UserCreate.validate_password_length`: reject an empty password, a
password whose UTF-8 encoding exceeds 72 bytes, and a password of fewer than
6 characters; otherwise return it unchanged.  Runs during `UserCreate`
construction, i.e. before any repository code. -/
def validate_password_length (password : List Nat) :
    Except String (List Nat) :=
  if password.isEmpty then .error "Password is required"
  else if (utf8Encode password).length > 72 then
    .error "Password is too long"
  else if password.length < 6 then
    .error "Password must be at least 6 characters"
  else .ok password

/-- The password pipeline of registration / admin user creation
(`register` and `create_user` both take a `UserCreate`, whose validator runs
first; the role repository then calls `get_password_hash` on the validated
password). -/
def create_user_password_hash (password : List Nat) :
    Except String BcryptHash :=
  match validate_password_length password with
  | .error e => .error e
  | .ok pw => .ok (get_password_hash (utf8Encode pw))

/-! ## Theorems settling the claims -/

/-- C3 counterexample: the claim asserts that verifying any password `q`
different from `p` against `hash(p)` fails.  Take `p` = 73 copies of byte
`'a'` and `q` = 74 copies: both exceed 72 bytes and truncate to the same
72-byte prefix, so verification of `q ≠ p` against `hash(p)` succeeds. -/
theorem verify_password_different_password_counterexample :
    List.replicate 74 97 ≠ List.replicate 73 97 ∧
    verify_password (List.replicate 74 97)
      (get_password_hash (List.replicate 73 97)) = true := by
  constructor
  · decide
  · rfl

/-- C3 (amended): hash-then-verify of the same password always succeeds
(including at exactly 72 bytes, where no truncation happens, and beyond 72
bytes, where the same truncation is applied on both sides); verifying `q`
against `hash(p)` succeeds exactly when the two truncate to the same bytes,
and in particular verifying a different password fails whenever both
passwords are at most 72 bytes long. -/
theorem password_roundtrip (p q : List Nat) :
    verify_password p (get_password_hash p) = true ∧
    (verify_password q (get_password_hash p) = true ↔
      truncatePassword q = truncatePassword p) ∧
    (p.length ≤ PASSWORD_MAX_BYTES → q.length ≤ PASSWORD_MAX_BYTES → q ≠ p →
      verify_password q (get_password_hash p) = false) := by
  refine ⟨?_, ?_, ?_⟩
  · simp [verify_password, get_password_hash, pwdContextVerify, pwdContextHash]
  · simp [verify_password, get_password_hash, pwdContextVerify, pwdContextHash]
  · intro hp hq hne
    have hp' : truncatePassword p = p := by
      simp [truncatePassword, Nat.not_lt.mpr hp]
    have hq' : truncatePassword q = q := by
      simp [truncatePassword, Nat.not_lt.mpr hq]
    simp [verify_password, get_password_hash, pwdContextVerify, pwdContextHash,
      hp', hq', hne]

/-- Witness for `password_roundtrip` at concrete inputs: the 6-byte passwords
`"abcdef"` and `"abcdeg"` are within 72 bytes, differ, and cross-verification
fails. -/
theorem password_roundtrip_witness :
    verify_password [97, 98, 99, 100, 101, 103]
      (get_password_hash [97, 98, 99, 100, 101, 102]) = false :=
  (password_roundtrip [97, 98, 99, 100, 101, 102]
    [97, 98, 99, 100, 101, 103]).2.2 (by decide) (by decide) (by decide)

/-- C8 counterexample: for the email `""` the lookup returns `None` even
though the recruiter collection contains a matching account, because the
blank-email guard short-circuits before any collection is probed; so the
claim's unrestricted "for every email string ... returns the first matching
account" fails. -/
theorem get_user_by_email_blank_counterexample :
    (blankEmailDb.recruiters.find? (fun a => a.email == "")).isSome = true ∧
    get_user_by_email blankEmailDb "" = none := by
  constructor
  · rfl
  · rfl

/-- C8 (amended): for every email that is nonempty and not whitespace-only,
the lookup probes recruiters, then consultants, then admins, in that fixed
order, returning the first match (`None` when no collection matches); in
particular an email present in the recruiter collection always resolves to
that recruiter account.  Blank emails short-circuit to `None`. -/
theorem get_user_by_email_probe_order (db : Db) (email : String)
    (h : pyStrip email ≠ "") :
    (get_user_by_email db email =
      match db.recruiters.find? (fun a => a.email == email) with
      | some u => some u
      | none =>
        match db.consultants.find? (fun a => a.email == email) with
        | some u => some u
        | none => db.admins.find? (fun a => a.email == email)) ∧
    (∀ u, db.recruiters.find? (fun a => a.email == email) = some u →
      get_user_by_email db email = some u) := by
  have hemail : (email == "") = false := by
    by_cases h0 : email = ""
    · subst h0
      exact absurd rfl h
    · exact beq_eq_false_iff_ne.mpr h0
  have htrim : (pyStrip email == "") = false := beq_eq_false_iff_ne.mpr h
  constructor
  · rw [get_user_by_email, hemail, htrim]
    simp
  · intro u hu
    rw [get_user_by_email, hemail, htrim]
    simp [hu]

/-- Witness for `get_user_by_email_probe_order`: with the same email stored
both as a recruiter and as an admin, the lookup returns the recruiter. -/
theorem get_user_by_email_probe_order_witness :
    get_user_by_email
      { recruiters := [{ id := "64a000000000000000000002", email := "x@y.z",
                         name := "R", role := .RECRUITER }],
        admins := [{ id := "64a000000000000000000003", email := "x@y.z",
                     name := "A", role := .ADMIN }] } "x@y.z" =
      some { id := "64a000000000000000000002", email := "x@y.z",
             name := "R", role := .RECRUITER } :=
  (get_user_by_email_probe_order
    { recruiters := [{ id := "64a000000000000000000002", email := "x@y.z",
                       name := "R", role := .RECRUITER }],
      admins := [{ id := "64a000000000000000000003", email := "x@y.z",
                   name := "A", role := .ADMIN }] } "x@y.z" (by decide)).2
    _ rfl

/-- C6 counterexample: merging a profile whose account reference is malformed
yields the placeholder `"Invalid ID"` — not `"Unknown User"` (nor
`"Unknown Recruiter"`) — and leaves the email field untouched instead of
substituting `"N/A"`; so the claim's stated sentinels are wrong for the
malformed-id case. -/
theorem merge_malformed_id_counterexample :
    (mergeUserData invalidIdProfile {}).name = some "Invalid ID" ∧
    (mergeUserData invalidIdProfile {}).email = none ∧
    ("Invalid ID" ≠ "Unknown User" ∧ "Invalid ID" ≠ "Unknown Recruiter") := by
  refine ⟨rfl, rfl, by decide, by decide⟩

/-- C6 (amended): the joined lookups never abort the primary entity — both
merge helpers are total and always return the document — and degrade as
follows: an absent reference gives `"Unknown User"`/`"Unknown Recruiter"`
with email `"N/A"`; a malformed id gives name `"Invalid ID"` (the job merge
also sets email `"N/A"`, the profile merge leaves email unchanged); a
well-formed id with no matching account gives
`"Unknown User"`/`"Unknown Recruiter"` with `"N/A"`. -/
theorem merge_placeholder_spec (jd : Job) (p : ConsultantProfile) (db : Db) :
    (jd.recruiter_id = "" →
      (mergeRecruiterData jd db).recruiter_name = some "Unknown Recruiter" ∧
      (mergeRecruiterData jd db).recruiter_email = some "N/A") ∧
    (jd.recruiter_id ≠ "" → isValidObjectId jd.recruiter_id = false →
      (mergeRecruiterData jd db).recruiter_name = some "Invalid ID" ∧
      (mergeRecruiterData jd db).recruiter_email = some "N/A") ∧
    (isValidObjectId jd.recruiter_id = true →
      db.recruiters.find? (fun a => a.id == jd.recruiter_id) = none →
      (mergeRecruiterData jd db).recruiter_name = some "Unknown Recruiter" ∧
      (mergeRecruiterData jd db).recruiter_email = some "N/A") ∧
    (p.consultant_id = "" →
      (mergeUserData p db).name = some "Unknown User" ∧
      (mergeUserData p db).email = some "N/A") ∧
    (p.consultant_id ≠ "" → isValidObjectId p.consultant_id = false →
      (mergeUserData p db).name = some "Invalid ID" ∧
      (mergeUserData p db).email = p.email) ∧
    (isValidObjectId p.consultant_id = true →
      db.consultants.find? (fun a => a.id == p.consultant_id) = none →
      (mergeUserData p db).name = some "Unknown User" ∧
      (mergeUserData p db).email = some "N/A") := by
  have hvalid_ne : ∀ s : String, isValidObjectId s = true → (s == "") = false := by
    intro s hs
    by_cases h0 : s = ""
    · subst h0
      exact absurd hs (by decide)
    · exact beq_eq_false_iff_ne.mpr h0
  refine ⟨?_, ?_, ?_, ?_, ?_, ?_⟩
  · intro h
    simp [mergeRecruiterData, h]
  · intro h1 h2
    simp [mergeRecruiterData, beq_eq_false_iff_ne.mpr h1, h2]
  · intro h1 h2
    simp [mergeRecruiterData, hvalid_ne _ h1, h1, h2]
  · intro h
    simp [mergeUserData, h]
  · intro h1 h2
    simp [mergeUserData, beq_eq_false_iff_ne.mpr h1, h2]
  · intro h1 h2
    simp [mergeUserData, hvalid_ne _ h1, h1, h2]

/-- Witness for `merge_placeholder_spec`: a job document whose `recruiter_id`
is absent (empty) is still returned, with the sentinel placeholders. -/
theorem merge_placeholder_spec_witness :
    (mergeRecruiterData
        { id := "64d000000000000000000001", recruiter_id := "",
          title := "T", description := "D" } {}).recruiter_name =
      some "Unknown Recruiter" :=
  ((merge_placeholder_spec
      { id := "64d000000000000000000001", recruiter_id := "",
        title := "T", description := "D" }
      invalidIdProfile {}).1 rfl).1

/-- The recruiter-data merge never changes the stored `status` field. -/
theorem mergeRecruiterData_status (jd : Job) (db : Db) :
    (mergeRecruiterData jd db).status = jd.status := by
  unfold mergeRecruiterData
  split
  · rfl
  · split
    · rfl
    · split <;> rfl

/-- C7: every job a consultant's listing returns has status `"OPEN"`,
whatever status query parameter the consultant supplied. -/
theorem consultant_jobs_all_open (db : Db) (statusParam : Option String)
    (j : Job) (hmem : j ∈ get_jobs .CONSULTANT statusParam db) :
    j.status = "OPEN" := by
  unfold get_jobs jobsGetAll applyStatusFilter at hmem
  simp only [beq_self_eq_true, if_true] at hmem
  rw [if_neg (by decide)] at hmem
  rcases List.mem_map.mp hmem with ⟨a, ha, rfl⟩
  rw [mergeRecruiterData_status]
  have ha2 : a ∈ (db.job_descriptions.filter (fun x => x.status == "OPEN")) :=
    List.drop_subset _ _ (List.take_subset _ _ ha)
  have := (List.mem_filter.mp ha2).2
  simpa using this

/-- Witness for `consultant_jobs_all_open`: a concrete one-job database where
the consultant listing returns the (merged) OPEN job. -/
theorem consultant_jobs_all_open_witness :
    ({ id := "64d000000000000000000002",
       recruiter_id := "64a000000000000000000009", title := "T",
       description := "D", status := "OPEN",
       recruiter_name := some "Unknown Recruiter",
       recruiter_email := some "N/A" } : Job).status = "OPEN" :=
  consultant_jobs_all_open
    { job_descriptions := [{ id := "64d000000000000000000002",
                             recruiter_id := "64a000000000000000000009",
                             title := "T", description := "D",
                             status := "OPEN" }] }
    (some "CLOSED") _ (by decide)

/-- C1: whenever the supplied job id is a well-formed `ObjectId` string — as
the id of every stored job is, being database-generated — the target job
exists, and the caller's id differs (as a string) from the stored
`recruiter_id`, the update endpoint answers HTTP 403 and the database — in
particular the stored job document — is unchanged.  The statement quantifies
over every role, so it covers ADMIN callers: the ownership check exempts
nobody. -/
theorem job_update_ownership_check (role : UserRole) (callerId jd_id : String)
    (jd_data : JobUpdate) (now : Nat) (db : Db) (j : Job)
    (hvalid : isValidObjectId jd_id = true)
    (hfind : db.job_descriptions.find? (fun x => x.id == jd_id) = some j)
    (hown : j.recruiter_id ≠ callerId) :
    update_job role callerId jd_id jd_data now db = (.err 403, db) := by
  unfold update_job
  by_cases hrole : requireRecruiterOrAdmin role = true
  · rw [if_pos hrole]
    unfold jobRepoUpdate
    simp [hvalid, hfind, bne_iff_ne, hown]
  · rw [if_neg hrole]

/-- Witness for `job_update_ownership_check`: an ADMIN whose id differs from
the job's stored `recruiter_id` gets 403 and the database is untouched. -/
theorem job_update_ownership_check_witness :
    update_job .ADMIN "64e000000000000000000001" "64d000000000000000000003"
      {} 9
      { job_descriptions := [{ id := "64d000000000000000000003",
                               recruiter_id := "64e000000000000000000002",
                               title := "T", description := "D" }] } =
    (.err 403,
      { job_descriptions := [{ id := "64d000000000000000000003",
                               recruiter_id := "64e000000000000000000002",
                               title := "T", description := "D" }] }) :=
  job_update_ownership_check .ADMIN "64e000000000000000000001"
    "64d000000000000000000003" {} 9
    { job_descriptions := [{ id := "64d000000000000000000003",
                             recruiter_id := "64e000000000000000000002",
                             title := "T", description := "D" }] }
    { id := "64d000000000000000000003",
      recruiter_id := "64e000000000000000000002",
      title := "T", description := "D" } (by decide) (by decide) (by decide)

/-- Updating the elements of a list that satisfy `p` with a
predicate-preserving function maps `find?` through the update. -/
theorem find_map_update {α : Type} (p : α → Bool) (f : α → α)
    (hp : ∀ x, p (f x) = p x) (l : List α) (s : α)
    (h : l.find? p = some s) :
    (l.map (fun x => if p x then f x else x)).find? p = some (f s) := by
  induction l with
  | nil => simp at h
  | cons a l ih =>
    by_cases ha : p a = true
    · rw [List.find?_cons_of_pos _ ha] at h
      injection h with h
      subst h
      simp only [List.map_cons, ha, if_true]
      exact List.find?_cons_of_pos _ (by rw [hp]; exact ha)
    · have ha' : p a = false := by simpa using ha
      rw [List.find?_cons_of_neg _ (by simp [ha'])] at h
      simp only [List.map_cons, ha', Bool.false_eq_true, if_false]
      rw [List.find?_cons_of_neg _ (by simp [ha'])]
      exact ih h

/-- C2 counterexample: a RECRUITER whose id differs from the submission's
stored `recruiter_id` successfully advances its status (SUBMITTED →
INTERVIEW) — the caller is neither an ADMIN nor the owning recruiter, so the
claim's "only admin or owner can change a status" fails. -/
theorem submission_status_nonowner_counterexample :
    isOkRes (update_submission_status .RECRUITER "64b000000000000000000002"
      "64f000000000000000000001" (some .INTERVIEW) 7 nonOwnerDb).1 = true ∧
    ((update_submission_status .RECRUITER "64b000000000000000000002"
        "64f000000000000000000001" (some .INTERVIEW) 7
        nonOwnerDb).2.submissions.map (fun s => s.status)) =
      [SubmissionStatus.INTERVIEW] ∧
    UserRole.RECRUITER ≠ UserRole.ADMIN ∧
    ("64b000000000000000000002" : String) ≠ "64b000000000000000000001" := by
  refine ⟨rfl, rfl, by decide, by decide⟩

/-- C2 (amended): a successful status change only guarantees that the caller
passed the recruiter-or-admin role gate — the caller's role is RECRUITER or
ADMIN.  Ownership is not checked: a recruiter who does not own the submission
can also advance its status (see the counterexample). -/
theorem submission_status_role_gate (role : UserRole)
    (callerId submission_id : String) (statusUpdate : Option SubmissionStatus)
    (now : Nat) (db : Db) (s' : Submission) (db' : Db)
    (h : update_submission_status role callerId submission_id statusUpdate
      now db = (.ok s', db')) :
    role = .RECRUITER ∨ role = .ADMIN := by
  by_cases hrole : requireRecruiterOrAdmin role = true
  · cases role with
    | ADMIN => exact Or.inr rfl
    | RECRUITER => exact Or.inl rfl
    | CONSULTANT => exact absurd hrole (by decide)
  · unfold update_submission_status at h
    rw [if_neg hrole] at h
    exact absurd (congrArg Prod.fst h) (by simp)

/-- Witness for `submission_status_role_gate`: the owning recruiter's own
successful update. -/
theorem submission_status_role_gate_witness :
    UserRole.RECRUITER = UserRole.RECRUITER ∨
      UserRole.RECRUITER = UserRole.ADMIN :=
  submission_status_role_gate .RECRUITER "64b000000000000000000001"
    "64f000000000000000000001" (some .OFFER) 3 nonOwnerDb
    { id := "64f000000000000000000001", jd_id := "64d000000000000000000009",
      consultant_id := "64c000000000000000000009",
      recruiter_id := "64b000000000000000000001",
      resume_path := "uploads/r.pdf", status := .OFFER, updated_at := 3 }
    { submissions := [{ id := "64f000000000000000000001",
                        jd_id := "64d000000000000000000009",
                        consultant_id := "64c000000000000000000009",
                        recruiter_id := "64b000000000000000000001",
                        resume_path := "uploads/r.pdf", status := .OFFER,
                        updated_at := 3 }] }
    (by decide)

/-- C5: for every existing submission, any caller who passes the
recruiter-or-admin gate can set ANY of the seven status values from ANY
current status: the endpoint succeeds, returns the submission with the
requested status, and stores exactly that status.  No transition restriction
exists. -/
theorem submission_status_transitions_unrestricted (role : UserRole)
    (callerId sid : String) (t : SubmissionStatus) (now : Nat) (db : Db)
    (s : Submission)
    (hrole : requireRecruiterOrAdmin role = true)
    (hvalid : isValidObjectId sid = true)
    (hfind : db.submissions.find? (fun x => x.id == sid) = some s) :
    update_submission_status role callerId sid (some t) now db =
      (.ok { s with status := t, updated_at := now },
        setSubmissionStatus db sid t now) ∧
    (setSubmissionStatus db sid t now).submissions.find?
        (fun x => x.id == sid) =
      some { s with status := t, updated_at := now } := by
  have hfind' := find_map_update (fun x : Submission => x.id == sid)
    (fun x => { x with status := t, updated_at := now }) (fun x => rfl)
    db.submissions s hfind
  have hfind2 : (setSubmissionStatus db sid t now).submissions.find?
      (fun x => x.id == sid) = some { s with status := t, updated_at := now } :=
    hfind'
  constructor
  · simp only [update_submission_status, subUpdateStatus, setSubmissionStatus,
      hrole, hvalid, hfind, if_true, hfind']
  · exact hfind2

/-- Witness for `submission_status_transitions_unrestricted`: an ADMIN moves
a WITHDRAWN submission back to SUBMITTED. -/
theorem submission_status_transitions_witness :
    update_submission_status .ADMIN "64a000000000000000000005"
      "64f000000000000000000005" (some .SUBMITTED) 13
      { submissions := [{ id := "64f000000000000000000005",
                          jd_id := "64d000000000000000000005",
                          consultant_id := "64c000000000000000000005",
                          recruiter_id := "64b000000000000000000005",
                          resume_path := "uploads/w.pdf",
                          status := .WITHDRAWN }] } =
      (.ok { id := "64f000000000000000000005",
             jd_id := "64d000000000000000000005",
             consultant_id := "64c000000000000000000005",
             recruiter_id := "64b000000000000000000005",
             resume_path := "uploads/w.pdf", status := .SUBMITTED,
             updated_at := 13 },
       { submissions := [{ id := "64f000000000000000000005",
                           jd_id := "64d000000000000000000005",
                           consultant_id := "64c000000000000000000005",
                           recruiter_id := "64b000000000000000000005",
                           resume_path := "uploads/w.pdf",
                           status := .SUBMITTED, updated_at := 13 }] }) := by
  have h := (submission_status_transitions_unrestricted .ADMIN
    "64a000000000000000000005" "64f000000000000000000005" .SUBMITTED 13
    { submissions := [{ id := "64f000000000000000000005",
                        jd_id := "64d000000000000000000005",
                        consultant_id := "64c000000000000000000005",
                        recruiter_id := "64b000000000000000000005",
                        resume_path := "uploads/w.pdf",
                        status := .WITHDRAWN }] }
    { id := "64f000000000000000000005", jd_id := "64d000000000000000000005",
      consultant_id := "64c000000000000000000005",
      recruiter_id := "64b000000000000000000005",
      resume_path := "uploads/w.pdf", status := .WITHDRAWN }
    (by decide) (by decide) (by decide)).1
  exact h

/-- The lazy profile step never touches the submissions collection. -/
theorem ensureConsultantProfile_submissions (db : Db) (uid pid : String)
    (now : Nat) :
    (ensureConsultantProfile db uid pid now).submissions = db.submissions := by
  unfold ensureConsultantProfile
  split <;> rfl

/-- C4: for a consultant's submission request — if the target job does not
exist the endpoint answers 404; if the job is not OPEN it answers 400 and the
database (in particular the submissions collection) is unchanged; if the job
is OPEN, the response is exactly the one new submission document, which has
status SUBMITTED, `recruiter_read = false`, `recruiter_id` copied from the
job, and `resume_path` referencing the persisted file, and the submissions
collection grows by exactly that document. -/
theorem create_submission_spec (uid jd_id : String) (comments : Option String)
    (fileExt rand newSubId newProfileId : String) (now : Nat) (db : Db) :
    (jobGetById db jd_id = .ok none →
      create_submission .CONSULTANT uid jd_id comments fileExt rand newSubId
        newProfileId now db = (.err 404, db)) ∧
    (∀ jd, jobGetById db jd_id = .ok (some jd) → jd.status ≠ "OPEN" →
      create_submission .CONSULTANT uid jd_id comments fileExt rand newSubId
        newProfileId now db = (.err 400, db)) ∧
    (∀ jd, jobGetById db jd_id = .ok (some jd) → jd.status = "OPEN" →
      (create_submission .CONSULTANT uid jd_id comments fileExt rand newSubId
          newProfileId now db).1 =
        .ok { id := newSubId, jd_id := jd_id, comments := comments,
              consultant_id := uid, recruiter_id := jd.recruiter_id,
              resume_path :=
                "uploads/" ++ uid ++ "_" ++ jd_id ++ "_" ++ rand ++ fileExt,
              status := .SUBMITTED, recruiter_read := false,
              created_at := now, updated_at := now } ∧
      (create_submission .CONSULTANT uid jd_id comments fileExt rand newSubId
          newProfileId now db).2.submissions =
        db.submissions ++
          [{ id := newSubId, jd_id := jd_id, comments := comments,
             consultant_id := uid, recruiter_id := jd.recruiter_id,
             resume_path :=
               "uploads/" ++ uid ++ "_" ++ jd_id ++ "_" ++ rand ++ fileExt,
             status := .SUBMITTED, recruiter_read := false,
             created_at := now, updated_at := now }]) := by
  refine ⟨?_, ?_, ?_⟩
  · intro h
    simp [create_submission, requireRole, h]
  · intro jd h hst
    simp [create_submission, requireRole, h, bne_iff_ne, hst]
  · intro jd h hst
    have hst' : (jd.status != "OPEN") = false := by
      simp [hst]
    constructor
    · simp [create_submission, requireRole, h, hst', subCreate]
    · simp [create_submission, requireRole, h, hst', subCreate,
        ensureConsultantProfile_submissions]

/-- Witness for `create_submission_spec`: a consultant submits to a concrete
OPEN job; the created submission carries the job's recruiter id, status
SUBMITTED, `recruiter_read = false`, and the persisted file path. -/
theorem create_submission_spec_witness :
    (create_submission .CONSULTANT "64c000000000000000000004"
        "64d000000000000000000004" none ".pdf" "abcd1234"
        "64f000000000000000000004" "64c100000000000000000004" 11
        { job_descriptions := [{ id := "64d000000000000000000004",
                                 recruiter_id := "64b000000000000000000004",
                                 title := "T", description := "D",
                                 status := "OPEN" }] }).1 =
      .ok { id := "64f000000000000000000004",
            jd_id := "64d000000000000000000004", comments := none,
            consultant_id := "64c000000000000000000004",
            recruiter_id := "64b000000000000000000004",
            resume_path := "uploads/" ++ "64c000000000000000000004" ++ "_" ++
              "64d000000000000000000004" ++ "_" ++ "abcd1234" ++ ".pdf",
            status := .SUBMITTED, recruiter_read := false,
            created_at := 11, updated_at := 11 } :=
  ((create_submission_spec "64c000000000000000000004"
      "64d000000000000000000004" none ".pdf" "abcd1234"
      "64f000000000000000000004" "64c100000000000000000004" 11
      { job_descriptions := [{ id := "64d000000000000000000004",
                               recruiter_id := "64b000000000000000000004",
                               title := "T", description := "D",
                               status := "OPEN" }] }).2.2
    { id := "64d000000000000000000004",
      recruiter_id := "64b000000000000000000004", title := "T",
      description := "D", status := "OPEN",
      recruiter_name := some "Unknown Recruiter",
      recruiter_email := some "N/A" }
    rfl rfl).1

/-- Inversion of `normalizeClassified`: a successful normalization forces the
raw title to be a (possibly defaulted) string, the experience conversion to
succeed, and determines every field of the result. -/
theorem normalizeClassified_ok_shape (pyFloat : JVal → Option Int)
    (isoParsable : String → Bool) (data : List (String × JVal))
    (jd_text : String) (r : ClassifiedJD)
    (h : normalizeClassified pyFloat isoParsable data jd_text = .ok r) :
    ∃ rawTitle exp,
      (dictGet data "title").getD (.jstr "") = .jstr rawTitle ∧
      pyFloat ((dictGet data "experience_required").getD (.jnum 0)) =
        some exp ∧
      r = { title := if pyStrip rawTitle == "" then "Untitled Position"
              else pyStrip rawTitle,
            client_name := jGetOrNone data "client_name",
            experience_required := exp,
            tech_required :=
              (match (dictGet data "tech_required").getD (.jarr []) with
                | .jarr xs => xs
                | _ => []),
            location := jGetOrNone data "location",
            visa_required := jGetOrNone data "visa_required",
            start_date :=
              (match jGetOrNone data "start_date" with
                | none => none
                | some (.jstr s) =>
                  if isoParsable (s.replace "Z" "+00:00") then some s else none
                | some _ => none),
            job_type := jGetOrNone data "job_type",
            jd_summary := jGetOrNone data "jd_summary",
            additional_notes := jGetOrNone data "additional_notes",
            description := jd_text } := by
  cases h0 : (dictGet data "title").getD (.jstr "") with
  | jstr s =>
    simp only [normalizeClassified, h0] at h
    cases hf : pyFloat ((dictGet data "experience_required").getD (.jnum 0)) with
    | none =>
      rw [hf] at h
      exact absurd h (by simp)
    | some exp =>
      rw [hf] at h
      injection h with h
      exact ⟨s, exp, rfl, rfl, h.symm⟩
  | jnull =>
    simp only [normalizeClassified, h0] at h
    exact absurd h (by simp)
  | jbool b =>
    simp only [normalizeClassified, h0] at h
    exact absurd h (by simp)
  | jnum n =>
    simp only [normalizeClassified, h0] at h
    exact absurd h (by simp)
  | jarr xs =>
    simp only [normalizeClassified, h0] at h
    exact absurd h (by simp)
  | jobj fs =>
    simp only [normalizeClassified, h0] at h
    exact absurd h (by simp)

/-- C9: whenever normalization returns a result — a missing or blank
(whitespace-only) `title` yields the placeholder `"Untitled Position"`;
a `tech_required` value that is not a JSON list yields `[]`; a present
`start_date` that is not an ISO-parsable string (a non-empty unparsable
string, or any truthy non-string) yields `none`. -/
theorem classify_normalization (pyFloat : JVal → Option Int)
    (isoParsable : String → Bool) (data : List (String × JVal))
    (jd_text : String) (r : ClassifiedJD)
    (h : normalizeClassified pyFloat isoParsable data jd_text = .ok r) :
    ((dictGet data "title" = none → r.title = "Untitled Position") ∧
     (∀ s, dictGet data "title" = some (.jstr s) → pyStrip s = "" →
       r.title = "Untitled Position")) ∧
    (∀ v, dictGet data "tech_required" = some v → (∀ xs, v ≠ JVal.jarr xs) →
      r.tech_required = []) ∧
    ((∀ s, dictGet data "start_date" = some (.jstr s) → s ≠ "" →
       isoParsable (s.replace "Z" "+00:00") = false → r.start_date = none) ∧
     (∀ v, dictGet data "start_date" = some v → (∀ s, v ≠ JVal.jstr s) →
       r.start_date = none)) := by
  obtain ⟨rawTitle, exp, h0, hf, hr⟩ :=
    normalizeClassified_ok_shape pyFloat isoParsable data jd_text r h
  subst hr
  refine ⟨⟨?_, ?_⟩, ?_, ?_, ?_⟩
  · intro ht
    rw [ht, Option.getD_none] at h0
    injection h0 with h0
    subst h0
    rfl
  · intro s ht hs
    rw [ht, Option.getD_some] at h0
    injection h0 with h0
    subst h0
    simp [hs]
  · intro v ht hv
    rcases v with _ | b | n | s2 | xs | fs
    · simp [ht]
    · simp [ht]
    · simp [ht]
    · simp [ht]
    · exact absurd rfl (hv _)
    · simp [ht]
  · intro s ht hs hiso
    simp only [jGetOrNone, ht, jTruthy]
    rw [if_pos (by simp [hs])]
    simp [hiso]
  · intro v ht hv
    simp only [jGetOrNone, ht]
    by_cases htr : jTruthy v = true
    · rw [if_pos htr]
      rcases v with _ | b | n | s2 | xs | fs
      · rfl
      · rfl
      · rfl
      · exact absurd rfl (hv _)
      · rfl
      · rfl
    · rw [if_neg (by simpa using htr)]

/-- Witness for `classify_normalization` on a concrete parsed response with a
blank title, a non-list `tech_required` and an unparsable `start_date`
(under an `isoParsable` oracle that rejects everything). -/
theorem classify_normalization_witness :
    ({ title := "Untitled Position", client_name := none,
       experience_required := 0, tech_required := [], location := none,
       visa_required := none, start_date := none, job_type := none,
       jd_summary := none, additional_notes := none,
       description := "text" } : ClassifiedJD).title = "Untitled Position" :=
  ((classify_normalization (fun _ => some 0) (fun _ => false)
    [("title", .jstr "  "), ("tech_required", .jstr "python"),
     ("start_date", .jstr "tomorrow")] "text"
    { title := "Untitled Position", client_name := none,
      experience_required := 0, tech_required := [], location := none,
      visa_required := none, start_date := none, job_type := none,
      jd_summary := none, additional_notes := none,
      description := "text" } rfl).1).2 "  " rfl rfl

/-- C10: any password that reaches hashing through account creation passed
the `UserCreate` validator, so its UTF-8 encoding is at most 72 bytes and
`get_password_hash` applies no truncation at all: the hash is taken over the
password's exact bytes.  (The truncation branch can therefore only run for
login-time verification of an over-long password, which bypasses
`UserCreate`.) -/
theorem user_create_no_truncation (password : List Nat) (h : BcryptHash)
    (hok : create_user_password_hash password = .ok h) :
    (utf8Encode password).length ≤ 72 ∧
    truncatePassword (utf8Encode password) = utf8Encode password ∧
    h = pwdContextHash (utf8Encode password) := by
  unfold create_user_password_hash validate_password_length at hok
  by_cases h1 : password.isEmpty
  · rw [if_pos h1] at hok
    exact absurd hok (by simp)
  · rw [if_neg h1] at hok
    by_cases h2 : (utf8Encode password).length > 72
    · rw [if_pos h2] at hok
      exact absurd hok (by simp)
    · rw [if_neg h2] at hok
      have hle : (utf8Encode password).length ≤ 72 := Nat.not_lt.mp h2
      have htr : truncatePassword (utf8Encode password) = utf8Encode password := by
        unfold truncatePassword PASSWORD_MAX_BYTES
        rw [if_neg (by omega)]
      by_cases h3 : password.length < 6
      · rw [if_pos h3] at hok
        exact absurd hok (by simp)
      · rw [if_neg h3] at hok
        refine ⟨hle, htr, ?_⟩
        injection hok with hok
        rw [← hok]
        unfold get_password_hash
        rw [htr]

/-- Witness for `user_create_no_truncation`: the 6-character ASCII password
`"abcdef"` passes validation and is hashed without truncation. -/
theorem user_create_no_truncation_witness :
    (utf8Encode [97, 98, 99, 100, 101, 102]).length ≤ 72 ∧
    truncatePassword (utf8Encode [97, 98, 99, 100, 101, 102]) =
      utf8Encode [97, 98, 99, 100, 101, 102] ∧
    get_password_hash (utf8Encode [97, 98, 99, 100, 101, 102]) =
      pwdContextHash (utf8Encode [97, 98, 99, 100, 101, 102]) :=
  user_create_no_truncation [97, 98, 99, 100, 101, 102]
    (get_password_hash (utf8Encode [97, 98, 99, 100, 101, 102])) rfl

end ConsultantTracker
